import Mathlib

/-
Verification of the `rainforest_eagle3` Eagle-200 client against its specification.

The development shallowly embeds the data model and the state-transforming parts of
`custom_components/rainforest_eagle3/eagle/{util,model,meter,hub}.py` and
`custom_components/rainforest_eagle3/sensor.py`.  Network I/O is abstracted by an
oracle: each HTTP POST exchange is supplied as a `PostOutcome` (the parsed response
mapping on success, an exception kind on failure), and every other behaviour is
translated function-by-function from the Python source.  Python `datetime` values in
UTC are represented by their Unix epoch seconds (an `Int`); Python `float` results of
the value-coercion cascade are represented exactly as rationals of the parsed decimal
literal.
-/

namespace Eagle

/-- Exception kinds that the embedded code can raise, mirroring the Python exception
classes that the source raises or catches. -/
inductive PyErr where
  | valueError
  | typeError
  | overflowError
  | osError
  | validationError
  | timeoutError
  | connectionError
deriving Repr, DecidableEq

/-- The wrapped failure kinds of `EagleHub.async_refresh_devices` (hub.py lines
155-160): `TimeoutError` is re-raised as a `TimeoutError` with a hub message, every
other exception as a `ConnectionError`. -/
inductive RefreshFailure where
  | timeout
  | connection
deriving Repr, DecidableEq

/-- Model of the dynamic values produced by `xmltodict.parse` and handled by the
pydantic validators: `None`, booleans, integers, floats (represented exactly as
rationals), strings, lists and string-keyed mappings. -/
inductive PyVal where
  | none
  | bool (b : Bool)
  | int (n : Int)
  | float (q : Rat)
  | str (s : String)
  | list (xs : List PyVal)
  | dict (kvs : List (String × PyVal))

/-- Lookup of a key in a Python mapping (first binding wins; the embedded mappings
never carry duplicate keys). -/
def dictFind? (kvs : List (String × PyVal)) (key : String) : Option PyVal :=
  match kvs with
  | [] => Option.none
  | (k, v) :: rest => if k = key then some v else dictFind? rest key

/-- Python's `data.get(key, data)` used by the `unwrap_outer_dict` validators of
`EagleDevice` and `Component` (model.py lines 54-58 and 81-85): return the entry under
`key` when present, the mapping itself otherwise.  A non-mapping input is returned
unchanged (the pydantic validator would fault on it and the subsequent required-field
validation rejects it in either case). -/
def unwrap_key (data : PyVal) (key : String) : PyVal :=
  match data with
  | PyVal.dict kvs =>
    match dictFind? kvs key with
    | some v => v
    | Option.none => PyVal.dict kvs
  | v => v

/-- util.py lines 20-26, `get_ensure_list(value, key)`: `None` becomes `[]`; for a
mapping that contains `key` the entry under `key` is taken; the result is returned
as-is when it is a list and wrapped in a one-element list otherwise. -/
def get_ensure_list (value : PyVal) (key : String) : List PyVal :=
  match value with
  | PyVal.none => []
  | PyVal.dict kvs =>
    match dictFind? kvs key with
    | some (PyVal.list xs) => xs
    | some v => [v]
    | Option.none => [PyVal.dict kvs]
  | PyVal.list xs => xs
  | v => [v]

/-- ASCII whitespace stripped by Python's `int`/`float` string conversions. -/
def isPySpace (c : Char) : Bool :=
  c = ' ' ∨ c = '\t' ∨ c = '\n' ∨ c = '\r' ∨ c = '\x0b' ∨ c = '\x0c'

/-- Strip leading and trailing whitespace, as Python's numeric string conversions do. -/
def stripSpaces (cs : List Char) : List Char :=
  ((cs.dropWhile isPySpace).reverse.dropWhile isPySpace).reverse

/-- Decimal digit value of a character, if any. -/
def decDigitVal? (c : Char) : Option Nat :=
  if '0' ≤ c ∧ c ≤ '9' then some (c.toNat - '0'.toNat) else Option.none

/-- Hexadecimal digit value of a character, if any. -/
def hexDigitVal? (c : Char) : Option Nat :=
  if '0' ≤ c ∧ c ≤ '9' then some (c.toNat - '0'.toNat)
  else if 'a' ≤ c ∧ c ≤ 'f' then some (c.toNat - 'a'.toNat + 10)
  else if 'A' ≤ c ∧ c ≤ 'F' then some (c.toNat - 'A'.toNat + 10)
  else Option.none

/-- Continue a Python digit run in base `b`: digits, with single underscores allowed
only between digits (CPython's grouped-literal rule for `int()`/`float()`). -/
def pyDigitsGo (dv : Char → Option Nat) (b acc : Nat) : List Char → Option Nat
  | [] => some acc
  | '_' :: rest =>
    match rest with
    | c :: rest2 =>
      match dv c with
      | some d => pyDigitsGo dv b (acc * b + d) rest2
      | Option.none => Option.none
    | [] => Option.none
  | c :: rest =>
    match dv c with
    | some d => pyDigitsGo dv b (acc * b + d) rest
    | Option.none => Option.none

/-- A nonempty Python digit run in base `b` consuming the whole input: it must start
with a digit and may contain single underscores between digits. -/
def pyDigits1 (dv : Char → Option Nat) (b : Nat) : List Char → Option Nat
  | c :: rest =>
    match dv c with
    | some d => pyDigitsGo dv b d rest
    | Option.none => Option.none
  | [] => Option.none

/-- Optional sign in front of a numeric body, as accepted by `int()`. -/
def pySignedBody (body : List Char → Option Nat) (cs : List Char) : Option Int :=
  match cs with
  | '+' :: rest => (body rest).map (fun n => (n : Int))
  | '-' :: rest => (body rest).map (fun n => -(n : Int))
  | _ => (body cs).map (fun n => (n : Int))

/-- Body of `int(s, 16)` after the optional sign: an optional `0x`/`0X` prefix (an
underscore may directly follow the prefix) and then hexadecimal grouped digits. -/
def hexAfterPrefix (cs : List Char) : Option Nat :=
  match cs with
  | '_' :: rest => pyDigits1 hexDigitVal? 16 rest
  | _ => pyDigits1 hexDigitVal? 16 cs

/-- Body of `int(s, 16)` after the optional sign. -/
def hexBody (cs : List Char) : Option Nat :=
  match cs with
  | '0' :: 'x' :: rest => hexAfterPrefix rest
  | '0' :: 'X' :: rest => hexAfterPrefix rest
  | _ => pyDigits1 hexDigitVal? 16 cs

/-- CPython `int(s)` on a string: surrounding whitespace, optional sign, grouped
decimal digits; `Option.none` models the `ValueError` raised on any other input. -/
def pyInt? (s : String) : Option Int :=
  pySignedBody (pyDigits1 decDigitVal? 10) (stripSpaces s.data)

/-- CPython `int(s, 16)` on a string: surrounding whitespace, optional sign, optional
`0x` prefix, grouped hexadecimal digits; `Option.none` models the `ValueError` raised
on any other input. -/
def pyIntBase16? (s : String) : Option Int :=
  pySignedBody hexBody (stripSpaces s.data)

/-- Consume a maximal grouped decimal digit run, returning its value, the number of
digits consumed, and the remaining characters.  Underscores are only consumed between
digits; anything else is left in the remainder. -/
def takeDigitsAux (acc cnt : Nat) : List Char → Nat × Nat × List Char
  | [] => (acc, cnt, [])
  | '_' :: rest =>
    match rest with
    | c :: rest2 =>
      if cnt > 0 then
        match decDigitVal? c with
        | some d => takeDigitsAux (acc * 10 + d) (cnt + 1) rest2
        | Option.none => (acc, cnt, '_' :: c :: rest2)
      else (acc, cnt, '_' :: c :: rest2)
    | [] => (acc, cnt, ['_'])
  | c :: rest =>
    match decDigitVal? c with
    | some d => takeDigitsAux (acc * 10 + d) (cnt + 1) rest
    | Option.none => (acc, cnt, c :: rest)

/-- Exponent digits of a float literal (after `e` and the optional exponent sign);
the whole remaining input must be consumed.  The running value is carried as an exact
numerator/denominator pair. -/
def parseExpDigits (num den : Nat) (negExp : Bool) (cs : List Char) : Option (Nat × Nat) :=
  match takeDigitsAux 0 0 cs with
  | (e, ec, rest) =>
    if ec = 0 ∨ rest ≠ [] then Option.none
    else if negExp then some (num, den * 10 ^ e) else some (num * 10 ^ e, den)

/-- Optional exponent sign of a float literal. -/
def parseExpSigned (num den : Nat) (cs : List Char) : Option (Nat × Nat) :=
  match cs with
  | '+' :: rest => parseExpDigits num den false rest
  | '-' :: rest => parseExpDigits num den true rest
  | _ => parseExpDigits num den false cs

/-- Optional exponent part of a float literal; without one the remaining input must
be empty. -/
def parseExpPart (num den : Nat) : List Char → Option (Nat × Nat)
  | [] => some (num, den)
  | 'e' :: rest => parseExpSigned num den rest
  | 'E' :: rest => parseExpSigned num den rest
  | _ => Option.none

/-- Body of a CPython float literal after the optional sign: `digits [. digits]` or
`. digits`, followed by an optional exponent.  The exact value is returned as a
numerator/denominator pair.  The `inf`/`infinity`/`nan` spellings CPython also accepts
are not modelled (no claim depends on them, and no finite rational represents them). -/
def pyFloatParts (cs : List Char) : Option (Nat × Nat) :=
  match takeDigitsAux 0 0 cs with
  | (ip, ic, rest) =>
    match rest with
    | '.' :: rest2 =>
      match takeDigitsAux 0 0 rest2 with
      | (fp, fc, rest3) =>
        if ic = 0 ∧ fc = 0 then Option.none
        else parseExpPart (ip * 10 ^ fc + fp) (10 ^ fc) rest3
    | _ => if ic = 0 then Option.none else parseExpPart ip 1 rest

/-- CPython `float(s)` on a string (finite decimal literals): surrounding whitespace,
optional sign, mantissa and optional exponent; the value is represented exactly as a
rational; `Option.none` models `ValueError`. -/
def pyFloat? (s : String) : Option Rat :=
  match stripSpaces s.data with
  | '+' :: rest => (pyFloatParts rest).map (fun p => mkRat p.1 p.2)
  | '-' :: rest => (pyFloatParts rest).map (fun p => mkRat (-(p.1 : Int)) p.2)
  | cs => (pyFloatParts cs).map (fun p => mkRat p.1 p.2)

/-- ASCII lowering of a character, as Python's `str.lower` does for ASCII input. -/
def pyCharLower (c : Char) : Char :=
  if 'A' ≤ c ∧ c ≤ 'Z' then Char.ofNat (c.toNat + 32) else c

/-- Python `s.lower()` (ASCII range; the XML fields involved are ASCII). -/
def pyLower (s : String) : String :=
  String.mk (s.data.map pyCharLower)

/-- The test `value.lower() in {"true", "false"}` of model.py line 34. -/
def isBoolWord (s : String) : Bool :=
  pyLower s = "true" ∨ pyLower s = "false"

/-- Python `bool(s)` on a string: truthiness, i.e. `True` exactly when the string is
nonempty.  In particular `bool("false")` is `True`. -/
def pyBool (s : String) : Bool :=
  s ≠ ""

/-- model.py lines 29-44, `Variable.validate_value` applied to the raw `Value`: a
string spelled `true`/`false` (case-insensitively) is replaced by `bool(value)`;
a remaining string is replaced by `int(value)` when that conversion succeeds, and
otherwise by `float(value)` when that succeeds; anything else (including `None` and
strings failing all three conversions) is left unchanged. -/
def validate_value (value : PyVal) : PyVal :=
  let v1 := match value with
    | PyVal.str s => if isBoolWord s then PyVal.bool (pyBool s) else PyVal.str s
    | v => v
  let v2 := match v1 with
    | PyVal.str s =>
      match pyInt? s with
      | some n => PyVal.int n
      | Option.none => PyVal.str s
    | v => v
  match v2 with
  | PyVal.str s =>
    match pyFloat? s with
    | some q => PyVal.float q
    | Option.none => PyVal.str s
  | v => v

/-- Earliest timestamp representable by `datetime` (0001-01-01T00:00:00Z). -/
def datetimeMinTimestamp : Int := -62135596800

/-- Latest timestamp representable by `datetime` (9999-12-31T23:59:59Z). -/
def datetimeMaxTimestamp : Int := 253402300799

/-- Largest timestamp the C `gmtime` conversion accepts before `tm_year` overflows a
32-bit int (CPython on a 64-bit glibc platform); beyond it `fromtimestamp` raises
`OSError` instead of `ValueError`. -/
def gmtimeMaxTimestamp : Int := 67768036191676799

/-- Smallest timestamp the C `gmtime` conversion accepts (see `gmtimeMaxTimestamp`). -/
def gmtimeMinTimestamp : Int := -67768040609740800

/-- Largest value of the platform's 64-bit `time_t` (2^63 - 1); a timestamp beyond
it makes `fromtimestamp` raise `OverflowError` before any conversion is attempted. -/
def timeTMax : Int := 9223372036854775807

/-- Smallest value of the platform's 64-bit `time_t` (-2^63). -/
def timeTMin : Int := -9223372036854775808

/-- Outcome of `datetime.fromtimestamp(t, tz=UTC)` for an integer `t`. -/
inductive FromTimestampResult where
  | ok (epochSeconds : Int)
  | valueError
  | uncaught (e : PyErr)
deriving Repr, DecidableEq

/-- CPython `datetime.fromtimestamp(t, tz=UTC)` on an integer, on a 64-bit glibc
platform: values outside `time_t` raise `OverflowError`; values whose year overflows
the C `tm_year` raise `OSError`; values outside years 1-9999 raise `ValueError`;
anything else yields the UTC datetime, represented here by its epoch seconds. -/
def datetime_fromtimestamp_utc (t : Int) : FromTimestampResult :=
  if t < timeTMin ∨ t > timeTMax then FromTimestampResult.uncaught PyErr.overflowError
  else if t < gmtimeMinTimestamp ∨ t > gmtimeMaxTimestamp then
    FromTimestampResult.uncaught PyErr.osError
  else if t < datetimeMinTimestamp ∨ t > datetimeMaxTimestamp then
    FromTimestampResult.valueError
  else FromTimestampResult.ok t

/-- util.py lines 11-17, `parse_hex_timestamp(value)` on a string, and equally the
`try` body of `EagleDevice.parse_last_contact` (model.py lines 95-99): `int(value, 16)`
followed by `datetime.fromtimestamp(timestamp, tz=UTC)`, with `ValueError` and
`TypeError` caught and mapped to `None`.  Exceptions of any other class (the
`OverflowError`/`OSError` of out-of-range timestamps) are not caught and escape. -/
def parse_hex_timestamp (s : String) : Except PyErr (Option Int) :=
  match pyIntBase16? s with
  | Option.none => Except.ok Option.none
  | some t =>
    match datetime_fromtimestamp_utc t with
    | FromTimestampResult.ok e => Except.ok (some e)
    | FromTimestampResult.valueError => Except.ok Option.none
    | FromTimestampResult.uncaught e => Except.error e

/-- model.py lines 87-99, `EagleDevice.parse_last_contact`: `None` passes through, a
string goes through the hex-timestamp parse, and any other value makes `int(value, 16)`
raise `TypeError`, which is caught and mapped to `None`.  (The `datetime` passthrough
branch is unreachable for values decoded from XML.) -/
def parse_last_contact (value : PyVal) : Except PyErr (Option Int) :=
  match value with
  | PyVal.none => Except.ok Option.none
  | PyVal.str s => parse_hex_timestamp s
  | _ => Except.ok Option.none

/-- model.py lines 69-79, the `EagleDevice` record.  `LastContact` is a UTC datetime
modelled by its epoch seconds. -/
structure EagleDevice where
  Name : String
  HardwareAddress : String
  Manufacturer : String
  ModelId : String
  Protocol : String
  LastContact : Option Int := Option.none
  ConnectionStatus : Option String := Option.none
  NetworkAddress : Option String := Option.none
deriving Repr, DecidableEq

/-- model.py lines 21-27, the `Variable` record.  `Value` holds the result of the
`validate_value` coercion cascade (the subsequent acceptance of the coerced value by
the `int | float | str | None` annotation is not modelled; every claim exercises the
validator itself). -/
structure Variable where
  Name : String
  Value : PyVal := PyVal.none
  Description : Option String := Option.none
  Units : Option String := Option.none

/-- An entry of `Component.Variables`, whose annotation is `list[Variable | str]`. -/
inductive VarOrStr where
  | var (v : Variable)
  | str (s : String)

/-- model.py lines 47-52, the `Component` record. -/
structure Component where
  Name : String
  FixedId : String
  Variables : List VarOrStr

/-- model.py lines 119-123, the `DeviceQueryResponse` record: a `DeviceDetails`
device record plus a list of components. -/
structure DeviceQueryResponse where
  DeviceDetails : EagleDevice
  Components : List Component

/-- A required pydantic field of type `str`: present and a string, otherwise the
model fails validation. -/
def requireStr (kvs : List (String × PyVal)) (key : String) : Except PyErr String :=
  match dictFind? kvs key with
  | some (PyVal.str s) => Except.ok s
  | _ => Except.error PyErr.validationError

/-- An optional pydantic field of type `str | None` defaulting to `None`: absent or
`None` yields `None`, a string yields itself, anything else fails validation. -/
def optionalStr (kvs : List (String × PyVal)) (key : String) : Except PyErr (Option String) :=
  match dictFind? kvs key with
  | Option.none => Except.ok Option.none
  | some PyVal.none => Except.ok Option.none
  | some (PyVal.str s) => Except.ok (some s)
  | some _ => Except.error PyErr.validationError

/-- `Variable.model_validate`: the `validate_value` model validator coerces the raw
`Value` (`values.get("Value")`, i.e. `None` when the key is absent) through the
bool/int/float cascade, then the remaining fields are validated. -/
def Variable.model_validate (data : PyVal) : Except PyErr Variable :=
  match data with
  | PyVal.dict kvs => do
    let value := validate_value (match dictFind? kvs "Value" with
      | some v => v
      | Option.none => PyVal.none)
    let name ← requireStr kvs "Name"
    let desc ← optionalStr kvs "Description"
    let units ← optionalStr kvs "Units"
    Except.ok { Name := name, Value := value, Description := desc, Units := units }
  | _ => Except.error PyErr.validationError

/-- Validation of one entry of `Component.Variables` against `Variable | str`: a
string stays a string, anything else must validate as a `Variable`. -/
def VarOrStr.model_validate (data : PyVal) : Except PyErr VarOrStr :=
  match data with
  | PyVal.str s => Except.ok (VarOrStr.str s)
  | d => (Variable.model_validate d).map VarOrStr.var

/-- model.py lines 60-66, `Component.ensure_variables_list`: a list is kept, anything
else is normalized via `get_ensure_list(value, "Variable")`. -/
def ensure_variables_list (value : PyVal) : List PyVal :=
  match value with
  | PyVal.list xs => xs
  | v => get_ensure_list v "Variable"

/-- `Component.model_validate` (model.py lines 47-66): unwrap an optional `Component`
wrapper key, then validate `Name`, `FixedId` and the normalized `Variables` list. -/
def Component.model_validate (data : PyVal) : Except PyErr Component :=
  match unwrap_key data "Component" with
  | PyVal.dict kvs => do
    let name ← requireStr kvs "Name"
    let fixedId ← requireStr kvs "FixedId"
    let varsRaw ← match dictFind? kvs "Variables" with
      | some v => Except.ok (ensure_variables_list v)
      | Option.none => Except.error PyErr.validationError
    let vars ← varsRaw.mapM VarOrStr.model_validate
    Except.ok { Name := name, FixedId := fixedId, Variables := vars }
  | _ => Except.error PyErr.validationError

/-- `EagleDevice.model_validate` (model.py lines 69-99): unwrap an optional `Device`
wrapper key, validate the five required string fields, parse `LastContact` through the
hex-timestamp validator and validate the two optional string fields. -/
def EagleDevice.model_validate (data : PyVal) : Except PyErr EagleDevice :=
  match unwrap_key data "Device" with
  | PyVal.dict kvs => do
    let name ← requireStr kvs "Name"
    let hw ← requireStr kvs "HardwareAddress"
    let manufacturer ← requireStr kvs "Manufacturer"
    let modelId ← requireStr kvs "ModelId"
    let protocol ← requireStr kvs "Protocol"
    let lastContact ← match dictFind? kvs "LastContact" with
      | Option.none => Except.ok Option.none
      | some v => parse_last_contact v
    let connectionStatus ← optionalStr kvs "ConnectionStatus"
    let networkAddress ← optionalStr kvs "NetworkAddress"
    Except.ok { Name := name, HardwareAddress := hw, Manufacturer := manufacturer,
                ModelId := modelId, Protocol := protocol, LastContact := lastContact,
                ConnectionStatus := connectionStatus, NetworkAddress := networkAddress }
  | _ => Except.error PyErr.validationError

/-- model.py lines 125-133, `DeviceQueryResponse.ensure_components_list`: a list is
kept; a mapping with a `Component` key is unwrapped first; a non-list result is
wrapped in a one-element list. -/
def ensure_components_list (value : PyVal) : List PyVal :=
  match value with
  | PyVal.list xs => xs
  | PyVal.dict kvs =>
    match dictFind? kvs "Component" with
    | some (PyVal.list xs) => xs
    | some v => [v]
    | Option.none => [PyVal.dict kvs]
  | v => [v]

/-- `DeviceQueryResponse.model_validate` (model.py lines 119-133): both fields are
required; `Components` is normalized and each entry validated as a `Component`. -/
def DeviceQueryResponse.model_validate (data : PyVal) : Except PyErr DeviceQueryResponse :=
  match data with
  | PyVal.dict kvs => do
    let dd ← match dictFind? kvs "DeviceDetails" with
      | some v => EagleDevice.model_validate v
      | Option.none => Except.error PyErr.validationError
    let comps ← match dictFind? kvs "Components" with
      | some v => (ensure_components_list v).mapM Component.model_validate
      | Option.none => Except.error PyErr.validationError
    Except.ok { DeviceDetails := dd, Components := comps }
  | _ => Except.error PyErr.validationError

/-- The structured content of the `KeyError` raised by
`ElectricityMeter.get_variable` (meter.py lines 70-71), whose message is
`f"Variable {key} not found in meter {self.hardware_address}"`. -/
structure VariableNotFound where
  address : String
  key : String
deriving Repr, DecidableEq

/-- The message string of the `KeyError` of meter.py line 70. -/
def VariableNotFound.message (e : VariableNotFound) : String :=
  "Variable " ++ e.key ++ " not found in meter " ++ e.address

/-- meter.py lines 23-38, the `ElectricityMeter` class state: the `EagleDevice`
reference stored by `__init__` and the components list (initially empty, replaced by
`refresh`). -/
structure ElectricityMeter where
  device : EagleDevice
  components : List Component

/-- meter.py lines 26-38, `ElectricityMeter.__init__(self, hub, device)`: raises
`ValueError` unless the device's `ModelId` is `electric_meter`; otherwise stores the
device and an empty components list.  (The `hub` back-reference carries no state used
by any embedded method.) -/
def ElectricityMeter.construct (device : EagleDevice) : Except PyErr ElectricityMeter :=
  if device.ModelId ≠ "electric_meter" then Except.error PyErr.valueError
  else Except.ok { device := device, components := [] }

/-- meter.py lines 40-43, the `hardware_address` property. -/
def ElectricityMeter.hardware_address (m : ElectricityMeter) : String :=
  m.device.HardwareAddress

/-- meter.py lines 45-48, the `last_contact` property. -/
def ElectricityMeter.last_contact (m : ElectricityMeter) : Option Int :=
  m.device.LastContact

/-- meter.py lines 50-62, the body of `ElectricityMeter.refresh` applied to the
`DeviceQueryResponse` it expects from the hub: when the response's
`DeviceDetails.LastContact` is not `None`, the held device's `ConnectionStatus`,
`LastContact` and `NetworkAddress` are overwritten from the response; otherwise all
three keep their previous values.  A nonempty response `Components` list replaces the
held components wholesale. -/
def ElectricityMeter.refreshWith (m : ElectricityMeter) (response : DeviceQueryResponse) :
    ElectricityMeter :=
  let details := response.DeviceDetails
  let d := if details.LastContact ≠ Option.none then
      { m.device with ConnectionStatus := details.ConnectionStatus,
                      LastContact := details.LastContact,
                      NetworkAddress := details.NetworkAddress }
    else m.device
  { device := d,
    components := match response.Components with
      | [] => m.components
      | c :: cs => c :: cs }

/-- First `Variable` entry (skipping plain strings) in a `Variables` list whose
`Name` equals the key — the inner loop of meter.py lines 66-69. -/
def findVariableInList : List VarOrStr → String → Option Variable
  | [], _ => Option.none
  | VarOrStr.str _ :: rest, key => findVariableInList rest key
  | VarOrStr.var v :: rest, key =>
    if v.Name = key then some v else findVariableInList rest key

/-- First matching `Variable` across the components, in order — the outer loop of
meter.py lines 66-69. -/
def findVariableInComponents : List Component → String → Option Variable
  | [], _ => Option.none
  | c :: rest, key =>
    match findVariableInList c.Variables key with
    | some v => some v
    | Option.none => findVariableInComponents rest key

/-- meter.py lines 64-71, `ElectricityMeter.get_variable`: a linear scan over all
components' variable lists returning the first `Variable` whose `Name` equals the key,
and raising a `KeyError` carrying the meter's hardware address and the key when no
entry matches. -/
def ElectricityMeter.get_variable (m : ElectricityMeter) (key : String) :
    Except VariableNotFound Variable :=
  match findVariableInComponents m.components key with
  | some v => Except.ok v
  | Option.none => Except.error { address := m.hardware_address, key := key }

/-- The `isinstance(variable, Variable)` filter of the `get_variable` scan: keep
`Variable` entries, drop plain strings. -/
def variableEntry? (x : VarOrStr) : Option Variable :=
  match x with
  | VarOrStr.var v => some v
  | VarOrStr.str _ => Option.none

/-- The declarative counterpart of the `get_variable` scan: all `Variable` entries of
all components, flattened in scan order. -/
def flattenVariables (components : List Component) : List Variable :=
  (components.map (fun c => c.Variables.filterMap variableEntry?)).flatten

/-- Generic lookup in an insertion-ordered association list (a Python `dict` keyed by
hardware address). -/
def alistFind? {α : Type} (l : List (String × α)) (key : String) : Option α :=
  match l with
  | [] => Option.none
  | (k, v) :: rest => if k = key then some v else alistFind? rest key

/-- Generic update of an insertion-ordered association list, with Python `dict`
semantics: an existing key is updated in place, a new key is appended. -/
def alistSet {α : Type} (l : List (String × α)) (key : String) (v : α) :
    List (String × α) :=
  match l with
  | [] => [(key, v)]
  | (k, w) :: rest => if k = key then (key, v) :: rest else (k, w) :: alistSet rest key v

/-- hub.py lines 50-52: the mutable state of an `EagleHub` relevant to the claims —
the device table, the meter table and the online flag.  (Connection parameters and
the HTTP session are fixed configuration consumed by the oracle.) -/
structure HubState where
  devices : List (String × EagleDevice)
  meters : List (String × ElectricityMeter)
  online : Bool

/-- The hub state right after `EagleHub.__init__`: empty tables, offline. -/
def HubState.initial : HubState :=
  { devices := [], meters := [], online := false }

/-- The outcome of one HTTP POST exchange, supplied by the oracle.  In hub.py lines
66-80 the `try` block begins only inside `async with self.session.post(...)`, so the
phase in which an exchange fails matters:
`connectFailure` is an exception raised while entering the `async with` (connection
refused, DNS failure, connect timeout) — before the `try`;
`statusFailure` is an exception raised inside the `try` (reading the body, or
`raise_for_status` on a non-2xx response);
`success` is a fully read 2xx response, parsed by `xmltodict`. -/
inductive PostOutcome where
  | success (response : PyVal)
  | connectFailure (e : PyErr)
  | statusFailure (e : PyErr)

/-- hub.py lines 64-80, `EagleHub._post`: a connect-phase failure propagates before
the `try` is entered, leaving the online flag unchanged; a failure inside the `try`
(body read, non-2xx status) leaves the hub offline and re-raises; a successful
exchange leaves it online and returns the parsed mapping.  (The source flips the flag
only on an edge to limit log spam; the resulting flag value is the same either way.) -/
def HubState.post (s : HubState) (o : PostOutcome) : HubState × Except PyErr PyVal :=
  match o with
  | PostOutcome.connectFailure e => (s, Except.error e)
  | PostOutcome.statusFailure e => ({ s with online := false }, Except.error e)
  | PostOutcome.success r => ({ s with online := true }, Except.ok r)

/-- Modelled from the spec: `DeviceQueryResponse.to_device`, called at hub.py line
115, is missing from model.py (the class defines no such method).  Per spec §4.2/§4.4
the query response carries a `DeviceDetails` record plus a `Components` list, and
`refresh_devices` merges the result into the device table keyed by `HardwareAddress`;
the device table stores `EagleDevice` records, so `to_device` is modelled as yielding
the response's `DeviceDetails` record. -/
def DeviceQueryResponse.to_device (r : DeviceQueryResponse) : EagleDevice :=
  r.DeviceDetails

/-- hub.py lines 102-115, `EagleHub.async_query_device`: POST the `device_query`
command (the oracle supplies the exchange outcome), unwrap an optional `Device` key
(`response.get("Device", response)`), validate as `DeviceQueryResponse` and convert
with `to_device`. -/
def HubState.async_query_device (s : HubState) (o : PostOutcome) :
    HubState × Except PyErr EagleDevice :=
  ((s.post o).1,
    match (s.post o).2 with
    | Except.error e => Except.error e
    | Except.ok resp =>
      match DeviceQueryResponse.model_validate (unwrap_key resp "Device") with
      | Except.error e => Except.error e
      | Except.ok q => Except.ok q.to_device)

/-- hub.py lines 96-100, `EagleHub._async_get_device_list`: POST the `device_list`
command, normalize the `DeviceList` entry with `get_ensure_list` and validate each
entry as an `EagleDevice`. -/
def HubState.get_device_list (s : HubState) (o : PostOutcome) :
    HubState × Except PyErr (List EagleDevice) :=
  ((s.post o).1,
    match (s.post o).2 with
    | Except.error e => Except.error e
    | Except.ok resp => (get_ensure_list resp "DeviceList").mapM EagleDevice.model_validate)

/-- hub.py lines 117-122, `EagleHub.async_refresh_device`: a silent no-op when the
address is not in the device table; otherwise the device is re-queried and the table
entry overwritten with the query result.  Exceptions propagate unwrapped. -/
def HubState.async_refresh_device (s : HubState) (hw : String) (o : PostOutcome) :
    HubState × Option PyErr :=
  match alistFind? s.devices hw with
  | Option.none => (s, Option.none)
  | some _ =>
    let step := s.async_query_device o
    match step.2 with
    | Except.error e => (step.1, some e)
    | Except.ok d => ({ step.1 with devices := alistSet step.1.devices hw d }, Option.none)

/-- hub.py line 133 constructs the meter as
`ElectricityMeter(hub=self, address=device.HardwareAddress)`, but
`ElectricityMeter.__init__` in meter.py has parameters `(self, hub, device)` and
accepts no `address` keyword, so CPython raises `TypeError` at this call site before
any constructor body runs. -/
def meterFromHubCallSite (_address : String) : Except PyErr ElectricityMeter :=
  Except.error PyErr.typeError

/-- hub.py lines 155-160: `TimeoutError` raised inside the refresh cycle is
re-raised as a `TimeoutError` naming the hub; any other exception is re-raised as a
`ConnectionError` naming the hub. -/
def wrapRefreshError (e : PyErr) : RefreshFailure :=
  match e with
  | PyErr.timeoutError => RefreshFailure.timeout
  | _ => RefreshFailure.connection

/-- The per-device loop of `EagleHub.async_refresh_devices` (hub.py lines 129-153):
for each listed device, query it (consuming one oracle outcome), store the result in
the device table under the listed `HardwareAddress`, and for an `electric_meter` not
yet in the meter table, construct and register a meter.  The first exception aborts
the loop (there is no per-device handler). -/
def refreshLoop (s : HubState) (devs : List EagleDevice) (oracle : List PostOutcome) :
    HubState × Option PyErr :=
  match devs with
  | [] => (s, Option.none)
  | device :: rest =>
    let o := oracle.headD (PostOutcome.connectFailure PyErr.connectionError)
    let step := s.async_query_device o
    match step.2 with
    | Except.error e => (step.1, some e)
    | Except.ok d =>
      let s2 := { step.1 with devices := alistSet step.1.devices device.HardwareAddress d }
      if device.ModelId = "electric_meter" then
        if (alistFind? s2.meters device.HardwareAddress).isSome then
          refreshLoop s2 rest oracle.tail
        else
          match meterFromHubCallSite device.HardwareAddress with
          | Except.error e => (s2, some e)
          | Except.ok m =>
            refreshLoop
              { s2 with meters := alistSet s2.meters device.HardwareAddress m }
              rest oracle.tail
      else refreshLoop s2 rest oracle.tail

/-- hub.py lines 124-160, `EagleHub.async_refresh_devices`: fetch the device list
(unless a list is supplied by the caller), then run the per-device loop; any exception
anywhere in the cycle is wrapped by `wrapRefreshError` and aborts the cycle.  The
oracle list supplies one `PostOutcome` per HTTP exchange, in order. -/
def HubState.async_refresh_devices (s : HubState) (devicesArg : Option (List EagleDevice))
    (oracle : List PostOutcome) : HubState × Option RefreshFailure :=
  match devicesArg with
  | some devs =>
    let r := refreshLoop s devs oracle
    (r.1, r.2.map wrapRefreshError)
  | Option.none =>
    let o := oracle.headD (PostOutcome.connectFailure PyErr.connectionError)
    let fetched := s.get_device_list o
    match fetched.2 with
    | Except.error e => (fetched.1, some (wrapRefreshError e))
    | Except.ok devs =>
      let r := refreshLoop fetched.1 devs oracle.tail
      (r.1, r.2.map wrapRefreshError)

/-- sensor.py lines 126-129, `Eagle3EnergySensor.available`:
`self.coordinator.hub.online and self.meter.connection_status == "Connected"`.
Python's `and` short-circuits, so when `online` is false the right operand is never
evaluated; the right operand is therefore taken as an unevaluated outcome (on the
meter class of meter.py, which has no `connection_status` property, evaluating it
would raise `AttributeError`). -/
def sensorAvailable (online : Bool) (connection_status : Except PyErr (Option String)) :
    Except PyErr Bool :=
  if online then connection_status.map (fun v => v = some "Connected")
  else Except.ok false

/-- Decidable form of the C9 invariant: every key of the meter table is a key of the
device table. -/
def metersSubsetDevicesB (s : HubState) : Bool :=
  s.meters.all (fun p => s.devices.any (fun q => q.1 = p.1))

/-- Propositional form of the C9 invariant, used in the preservation proofs. -/
def metersSubsetDevicesP (s : HubState) : Prop :=
  ∀ k, (alistFind? s.meters k).isSome = true → (alistFind? s.devices k).isSome = true

/-- A minimal `Components` value for a query response: one `Main` component holding
the instantaneous-demand variable with the given raw value. -/
def demandComponents (rawValue : String) : PyVal :=
  PyVal.dict [("Component", PyVal.dict
    [("Name", PyVal.str "Main"), ("FixedId", PyVal.str "0"),
     ("Variables", PyVal.dict [("Variable", PyVal.dict
       [("Name", PyVal.str "zigbee:InstantaneousDemand"),
        ("Value", PyVal.str rawValue)])])])]

/-- C1 scenario: the `device_list` entry for the electric meter `addr-1`. -/
def c1ListedMeter : PyVal :=
  PyVal.dict [("Name", PyVal.str "Power Meter"), ("HardwareAddress", PyVal.str "addr-1"),
    ("Manufacturer", PyVal.str "Generic"), ("ModelId", PyVal.str "electric_meter"),
    ("Protocol", PyVal.str "Zigbee")]

/-- C1 scenario: the `device_list` entry for the non-meter device `addr-2`. -/
def c1ListedOther : PyVal :=
  PyVal.dict [("Name", PyVal.str "Gateway"), ("HardwareAddress", PyVal.str "addr-2"),
    ("Manufacturer", PyVal.str "Generic"), ("ModelId", PyVal.str "other"),
    ("Protocol", PyVal.str "Zigbee")]

/-- C1 scenario: the parsed `device_list` response carrying exactly the two devices. -/
def c1DeviceListResponse : PyVal :=
  PyVal.dict [("DeviceList", PyVal.list [c1ListedMeter, c1ListedOther])]

/-- C1 scenario: the successful `device_query` response for `addr-1`, carrying the
numeric instantaneous-demand value `3.14`. -/
def c1QueryResponse1 : PyVal :=
  PyVal.dict [("Device", PyVal.dict
    [("DeviceDetails", PyVal.dict
      [("Name", PyVal.str "Power Meter"), ("HardwareAddress", PyVal.str "addr-1"),
       ("Manufacturer", PyVal.str "Generic"), ("ModelId", PyVal.str "electric_meter"),
       ("Protocol", PyVal.str "Zigbee"), ("LastContact", PyVal.str "65000000"),
       ("ConnectionStatus", PyVal.str "Connected"), ("NetworkAddress", PyVal.str "0xbeef")]),
     ("Components", demandComponents "3.14")])]

/-- C1 scenario: the successful `device_query` response for `addr-2`. -/
def c1QueryResponse2 : PyVal :=
  PyVal.dict [("Device", PyVal.dict
    [("DeviceDetails", PyVal.dict
      [("Name", PyVal.str "Gateway"), ("HardwareAddress", PyVal.str "addr-2"),
       ("Manufacturer", PyVal.str "Generic"), ("ModelId", PyVal.str "other"),
       ("Protocol", PyVal.str "Zigbee"), ("LastContact", PyVal.str "65000000"),
       ("ConnectionStatus", PyVal.str "Connected"), ("NetworkAddress", PyVal.str "0xcafe")]),
     ("Components", demandComponents "0")])]

/-- C1 scenario: the oracle for one `refresh_devices()` cycle — a successful
device-list exchange followed by successful query exchanges for both devices. -/
def c1Oracle : List PostOutcome :=
  [PostOutcome.success c1DeviceListResponse,
   PostOutcome.success c1QueryResponse1,
   PostOutcome.success c1QueryResponse2]

/-- C2/C8 scenario: the device record previously stored in the hub table for
`addr-1`, with all three optional fields known. -/
def c2StoredDev : EagleDevice :=
  { Name := "Power Meter", HardwareAddress := "addr-1", Manufacturer := "Generic",
    ModelId := "electric_meter", Protocol := "Zigbee",
    LastContact := some 1694498816, ConnectionStatus := some "Connected",
    NetworkAddress := some "0xbeef" }

/-- C2/C8 scenario: a hub state holding the stored record for `addr-1`. -/
def c2PreState : HubState :=
  { devices := [("addr-1", c2StoredDev)], meters := [], online := true }

/-- C2/C8 scenario: a `device_query` response for `addr-1` whose `DeviceDetails`
lacks `ConnectionStatus`, `LastContact` and `NetworkAddress`. -/
def c2RespLacking : PyVal :=
  PyVal.dict [("Device", PyVal.dict
    [("DeviceDetails", PyVal.dict
      [("Name", PyVal.str "Power Meter"), ("HardwareAddress", PyVal.str "addr-1"),
       ("Manufacturer", PyVal.str "Generic"), ("ModelId", PyVal.str "electric_meter"),
       ("Protocol", PyVal.str "Zigbee")]),
     ("Components", demandComponents "3.14")])]

/-- C2/C8 scenario: the device record the lacking response parses to — the three
optional fields are `None`. -/
def c2BareDev : EagleDevice :=
  { Name := "Power Meter", HardwareAddress := "addr-1", Manufacturer := "Generic",
    ModelId := "electric_meter", Protocol := "Zigbee" }

/-- C2/C8 scenario: the meter constructed (per meter.py) from the stored record. -/
def c2Meter : ElectricityMeter :=
  { device := c2StoredDev, components := [] }

/-- C2 scenario: a parsed query response whose `DeviceDetails` lacks the three
optional fields. -/
def c2QueryLacking : DeviceQueryResponse :=
  { DeviceDetails := c2BareDev, Components := [] }

/-- C2 scenario: a device record carrying fresh values for the three fields. -/
def c2FreshDev : EagleDevice :=
  { Name := "Power Meter", HardwareAddress := "addr-1", Manufacturer := "Generic",
    ModelId := "electric_meter", Protocol := "Zigbee",
    LastContact := some 1700000000, ConnectionStatus := some "Connected",
    NetworkAddress := some "0xfeed" }

/-- C2 scenario: a parsed query response that includes the three fields. -/
def c2QueryFull : DeviceQueryResponse :=
  { DeviceDetails := c2FreshDev, Components := [] }

/-- C4 scenario: three non-meter devices for one supplied-list refresh cycle. -/
def c4DevA : EagleDevice :=
  { Name := "A", HardwareAddress := "addr-a", Manufacturer := "Generic",
    ModelId := "other", Protocol := "Zigbee" }

/-- C4 scenario: the second device, whose query will fail. -/
def c4DevB : EagleDevice :=
  { Name := "B", HardwareAddress := "addr-b", Manufacturer := "Generic",
    ModelId := "other", Protocol := "Zigbee" }

/-- C4 scenario: the third device, never reached. -/
def c4DevC : EagleDevice :=
  { Name := "C", HardwareAddress := "addr-c", Manufacturer := "Generic",
    ModelId := "other", Protocol := "Zigbee" }

/-- C4 scenario: a successful query response for the device at `hw`. -/
def c4RespFor (name hw : String) : PyVal :=
  PyVal.dict [("Device", PyVal.dict
    [("DeviceDetails", PyVal.dict
      [("Name", PyVal.str name), ("HardwareAddress", PyVal.str hw),
       ("Manufacturer", PyVal.str "Generic"), ("ModelId", PyVal.str "other"),
       ("Protocol", PyVal.str "Zigbee")]),
     ("Components", demandComponents "0")])]

/-- C4 scenario: oracle where the first device's query succeeds, the second
exchange has the given outcome, and the third would succeed. -/
def c4OracleMid (o : PostOutcome) : List PostOutcome :=
  [PostOutcome.success (c4RespFor "A" "addr-a"),
   o,
   PostOutcome.success (c4RespFor "C" "addr-c")]

/-- C8 witness input: a device that is not an electricity meter. -/
def c8OtherDev : EagleDevice :=
  { Name := "Gateway", HardwareAddress := "addr-2", Manufacturer := "Generic",
    ModelId := "other", Protocol := "Zigbee" }

theorem alistFind?_alistSet_self {α : Type} (l : List (String × α)) (k : String) (v : α) :
    alistFind? (alistSet l k v) k = some v := by
  induction l with
  | nil => simp [alistSet, alistFind?]
  | cons p rest ih =>
    by_cases h : p.1 = k
    · simp [alistSet, alistFind?, h]
    · simp [alistSet, alistFind?, h, ih]

theorem alistFind?_alistSet_isSome {α : Type} (l : List (String × α)) (key k : String)
    (v : α) :
    (alistFind? (alistSet l key v) k).isSome = true ↔
      k = key ∨ (alistFind? l k).isSome = true := by
  induction l with
  | nil =>
    by_cases h : key = k
    · subst h; simp [alistSet, alistFind?]
    · have h2 : ¬(k = key) := fun hk => h hk.symm
      simp [alistSet, alistFind?, h, h2]
  | cons p rest ih =>
    obtain ⟨a, w⟩ := p
    by_cases h : a = key
    · by_cases h2 : key = k
      · simp [alistSet, alistFind?, h, h2]
      · have h3 : ¬(k = key) := fun hk => h2 hk.symm
        have h4 : ¬(a = k) := fun hk => h2 ((h.symm.trans hk))
        simp [alistSet, alistFind?, h, h2, h3, h4]
    · by_cases h3 : a = k
      · have h4 : ¬(k = key) := fun hk => h (h3.trans hk)
        simp [alistSet, alistFind?, h, h3, h4]
      · simp [alistSet, alistFind?, h, h3, ih]

theorem alist_any_eq_isSome {α : Type} (l : List (String × α)) (k : String) :
    (l.any (fun q => q.1 = k)) = (alistFind? l k).isSome := by
  induction l with
  | nil => rfl
  | cons p rest ih =>
    by_cases h : p.1 = k
    · simp [alistFind?, h]
    · simp [alistFind?, h, ih]

theorem alistFind?_isSome_of_mem {α : Type} (l : List (String × α)) (p : String × α)
    (hp : p ∈ l) : (alistFind? l p.1).isSome = true := by
  induction l with
  | nil => cases hp
  | cons q rest ih =>
    rcases List.mem_cons.mp hp with h | h
    · subst h; simp [alistFind?]
    · by_cases hq : q.1 = p.1
      · simp [alistFind?, hq]
      · simp [alistFind?, hq, ih h]

theorem exists_mem_of_alistFind?_isSome {α : Type} (l : List (String × α)) (k : String)
    (h : (alistFind? l k).isSome = true) : ∃ p, p ∈ l ∧ p.1 = k := by
  induction l with
  | nil => simp [alistFind?] at h
  | cons q rest ih =>
    by_cases hq : q.1 = k
    · exact ⟨q, List.mem_cons_self q rest, hq⟩
    · simp only [alistFind?, hq, if_neg] at h
      obtain ⟨p, hp, hpk⟩ := ih h
      exact ⟨p, List.mem_cons_of_mem q hp, hpk⟩

theorem metersSubsetDevicesB_iff (s : HubState) :
    metersSubsetDevicesB s = true ↔ metersSubsetDevicesP s := by
  unfold metersSubsetDevicesB metersSubsetDevicesP
  rw [List.all_eq_true]
  constructor
  · intro h k hk
    obtain ⟨p, hp, hpk⟩ := exists_mem_of_alistFind?_isSome s.meters k hk
    have h2 := h p hp
    rw [alist_any_eq_isSome] at h2
    rw [← hpk]
    exact h2
  · intro h p hp
    rw [alist_any_eq_isSome]
    exact h p.1 (alistFind?_isSome_of_mem s.meters p hp)

theorem post_fst_devices (s : HubState) (o : PostOutcome) :
    (s.post o).1.devices = s.devices := by
  cases o <;> rfl

theorem post_fst_meters (s : HubState) (o : PostOutcome) :
    (s.post o).1.meters = s.meters := by
  cases o <;> rfl

theorem async_query_device_fst (s : HubState) (o : PostOutcome) :
    (s.async_query_device o).1 = (s.post o).1 := rfl

theorem get_device_list_fst (s : HubState) (o : PostOutcome) :
    (s.get_device_list o).1 = (s.post o).1 := rfl

/-- C3 counterexample: the claim says online becomes False on the first request that
fails with a connection error, but in hub.py lines 66-80 the `try` begins only inside
`async with session.post(...)` — a connect-phase connection error propagates before
the `try`, leaving the flag unchanged.  Concretely: after one successful request
(online is True), a request failing with a connect-phase connection error leaves
online still True, not False. -/
theorem c3_connect_phase_counterexample :
    ((HubState.initial.post (PostOutcome.success (PyVal.dict []))).1.post
        (PostOutcome.connectFailure PyErr.connectionError)).1.online = true := rfl

/-- C3 amended: the hub's online flag starts false; a request whose HTTP exchange
completes without a transport or status error leaves the hub online; a request that
fails inside the response handling (a body-read failure or a non-2xx status checked
by `raise_for_status`) leaves it offline; a request that fails in the connect phase
(connection refused, DNS failure, connect timeout), raised before the `try`, leaves
the flag unchanged; and the sensor availability derived from the hub is false
whenever the hub is offline, whatever the device-level connection status (even an
attribute error evaluating it). -/
theorem c3_online_transitions_amended :
    HubState.initial.online = false
    ∧ (∀ (s : HubState) (r : PyVal), ((s.post (PostOutcome.success r)).1).online = true)
    ∧ (∀ (s : HubState) (e : PyErr),
        ((s.post (PostOutcome.statusFailure e)).1).online = false)
    ∧ (∀ (s : HubState) (e : PyErr),
        ((s.post (PostOutcome.connectFailure e)).1).online = s.online)
    ∧ (∀ (cs : Except PyErr (Option String)), sensorAvailable false cs = Except.ok false) :=
  ⟨rfl, fun _ _ => rfl, fun _ _ => rfl, fun _ _ => rfl, fun _ => rfl⟩

/-- C7 counterexample: `get_ensure_list` applied to a parent mapping that lacks the
requested key returns the one-element list containing the parent mapping itself, not
the empty list the claim demands. -/
theorem c7_missing_key_counterexample :
    get_ensure_list (PyVal.dict [("Other", PyVal.str "x")]) "DeviceList"
        = [PyVal.dict [("Other", PyVal.str "x")]]
    ∧ [PyVal.dict [("Other", PyVal.str "x")]] ≠ ([] : List PyVal) :=
  ⟨rfl, by simp⟩

/-- C7 amended: `get_ensure_list` returns a one-element list for a key holding a
single non-list element, the list unchanged for a key holding a list, the empty list
for a `None` parent, and — when the key is missing — the one-element list containing
the parent mapping itself. -/
theorem c7_get_ensure_list_amended :
    (∀ (kvs : List (String × PyVal)) (key : String) (v : PyVal),
        dictFind? kvs key = some v → (∀ xs, v ≠ PyVal.list xs) →
        get_ensure_list (PyVal.dict kvs) key = [v])
    ∧ (∀ (kvs : List (String × PyVal)) (key : String) (xs : List PyVal),
        dictFind? kvs key = some (PyVal.list xs) →
        get_ensure_list (PyVal.dict kvs) key = xs)
    ∧ (∀ (key : String), get_ensure_list PyVal.none key = [])
    ∧ (∀ (kvs : List (String × PyVal)) (key : String),
        dictFind? kvs key = Option.none →
        get_ensure_list (PyVal.dict kvs) key = [PyVal.dict kvs]) := by
  refine ⟨?_, ?_, fun _ => rfl, ?_⟩
  · intro kvs key v h hv
    simp only [get_ensure_list]
    rw [h]
    cases v with
    | list xs => exact absurd rfl (hv xs)
    | none => rfl
    | bool b => rfl
    | int n => rfl
    | float q => rfl
    | str s => rfl
    | dict kvs2 => rfl
  · intro kvs key xs h
    simp only [get_ensure_list]
    rw [h]
  · intro kvs key h
    simp only [get_ensure_list]
    rw [h]

/-- C7 witness: the amended behaviour at concrete inputs — a single element, a
two-element list, a `None` parent and a missing key. -/
theorem c7_get_ensure_list_amended_witness :
    get_ensure_list (PyVal.dict [("DeviceList", PyVal.str "x")]) "DeviceList"
        = [PyVal.str "x"]
    ∧ get_ensure_list
        (PyVal.dict [("DeviceList", PyVal.list [PyVal.str "a", PyVal.str "b"])]) "DeviceList"
        = [PyVal.str "a", PyVal.str "b"]
    ∧ get_ensure_list PyVal.none "DeviceList" = []
    ∧ get_ensure_list (PyVal.dict [("Other", PyVal.str "x")]) "DeviceList"
        = [PyVal.dict [("Other", PyVal.str "x")]] :=
  ⟨c7_get_ensure_list_amended.1 _ "DeviceList" _ rfl (fun _ h => PyVal.noConfusion h),
   c7_get_ensure_list_amended.2.1 _ "DeviceList" _ rfl,
   c7_get_ensure_list_amended.2.2.1 "DeviceList",
   c7_get_ensure_list_amended.2.2.2 _ "DeviceList" rfl⟩

theorem findVariableInList_eq (l : List VarOrStr) (key : String) :
    findVariableInList l key =
      (l.filterMap variableEntry?).find? (fun v => v.Name == key) := by
  induction l with
  | nil => rfl
  | cons x rest ih =>
    cases x with
    | str s =>
      rw [show (VarOrStr.str s :: rest).filterMap variableEntry?
            = rest.filterMap variableEntry? from by
          simp [List.filterMap_cons, variableEntry?]]
      simpa [findVariableInList] using ih
    | var v =>
      rw [show (VarOrStr.var v :: rest).filterMap variableEntry?
            = v :: rest.filterMap variableEntry? from by
          simp [List.filterMap_cons, variableEntry?]]
      by_cases h : v.Name = key
      · rw [List.find?_cons_of_pos _ (by simp [h])]
        simp [findVariableInList, h]
      · rw [List.find?_cons_of_neg _ (by simp [h])]
        simpa [findVariableInList, h] using ih

theorem findVariableInComponents_eq (cs : List Component) (key : String) :
    findVariableInComponents cs key =
      (flattenVariables cs).find? (fun v => v.Name == key) := by
  induction cs with
  | nil => rfl
  | cons c rest ih =>
    have hflat : flattenVariables (c :: rest) =
        (c.Variables.filterMap variableEntry?) ++ flattenVariables rest := by
      simp [flattenVariables]
    rw [hflat, List.find?_append]
    unfold findVariableInComponents
    rw [findVariableInList_eq]
    cases (c.Variables.filterMap variableEntry?).find? (fun v => v.Name == key) with
    | none => simpa using ih
    | some v => rfl

/-- C10: `get_variable` performs a linear scan over all components' variable lists
and equals the first match of the flattened scan; when no `Variable` entry has the
requested name it fails with the `KeyError` carrying the meter's hardware address and
the requested name — it never returns a null result. -/
theorem c10_get_variable_lookup (m : ElectricityMeter) (key : String) :
    m.get_variable key =
      match (flattenVariables m.components).find? (fun v => v.Name == key) with
      | some v => Except.ok v
      | Option.none => Except.error { address := m.hardware_address, key := key } := by
  unfold ElectricityMeter.get_variable
  rw [findVariableInComponents_eq]

/-- C5: the Variable value coercion tries bool, then int, then float, in that order,
and otherwise leaves the raw value unchanged: "true" coerces to True, "42" to 42,
"3.14" to the float 3.14, "on" stays the string "on", and None stays None.  The
general clauses pin the order: a bool-word never reaches the int/float conversions,
and an int-parseable string (always also float-parseable) is taken by int first. -/
theorem c5_value_coercion_cascade :
    validate_value (PyVal.str "true") = PyVal.bool true
    ∧ validate_value (PyVal.str "42") = PyVal.int 42
    ∧ validate_value (PyVal.str "3.14") = PyVal.float (157 / 50)
    ∧ validate_value (PyVal.str "on") = PyVal.str "on"
    ∧ validate_value PyVal.none = PyVal.none
    ∧ (∀ (s : String), isBoolWord s = true →
        validate_value (PyVal.str s) = PyVal.bool true)
    ∧ (∀ (s : String) (n : Int), isBoolWord s = false → pyInt? s = some n →
        validate_value (PyVal.str s) = PyVal.int n)
    ∧ (∀ (s : String) (q : Rat), isBoolWord s = false → pyInt? s = Option.none →
        pyFloat? s = some q → validate_value (PyVal.str s) = PyVal.float q)
    ∧ (∀ (s : String), isBoolWord s = false → pyInt? s = Option.none →
        pyFloat? s = Option.none → validate_value (PyVal.str s) = PyVal.str s) := by
  refine ⟨rfl, rfl, ?_, rfl, rfl, ?_, ?_, ?_, ?_⟩
  · rw [show ((157 : Rat) / 50) = mkRat 157 50 from by rw [Rat.mkRat_eq_div]; norm_num]
    rfl
  · intro s h
    have hne : s ≠ "" := by
      intro he
      rw [he] at h
      exact absurd h (by decide)
    simp [validate_value, h, pyBool, hne]
  · intro s n h1 h2
    simp [validate_value, h1, h2]
  · intro s q h1 h2 h3
    simp [validate_value, h1, h2, h3]
  · intro s h1 h2 h3
    simp [validate_value, h1, h2, h3]

/-- C5 witness: the cascade clauses instantiated at fresh concrete inputs — a
case-insensitive bool word, a signed integer, an exponent float and an unparseable
string. -/
theorem c5_value_coercion_cascade_witness :
    validate_value (PyVal.str "TRUE") = PyVal.bool true
    ∧ validate_value (PyVal.str "-7") = PyVal.int (-7)
    ∧ validate_value (PyVal.str "1e2") = PyVal.float (mkRat 100 1)
    ∧ validate_value (PyVal.str "n/a") = PyVal.str "n/a" :=
  ⟨c5_value_coercion_cascade.2.2.2.2.2.1 "TRUE" (by decide),
   c5_value_coercion_cascade.2.2.2.2.2.2.1 "-7" (-7) (by decide) (by decide),
   c5_value_coercion_cascade.2.2.2.2.2.2.2.1 "1e2" (mkRat 100 1) (by decide) (by decide) rfl,
   c5_value_coercion_cascade.2.2.2.2.2.2.2.2 "n/a" (by decide) (by decide) (by decide)⟩

/-- C6 counterexample: the claim says the LastContact parse never raises on a failing
input, but the hex string of 2^64 - 1 parses as an integer beyond the platform's
64-bit time range, so `datetime.fromtimestamp` raises an `OverflowError` that the
`except (ValueError, TypeError)` handler does not catch. -/
theorem c6_hex_timestamp_counterexample :
    parse_last_contact (PyVal.str "ffffffffffffffff") = Except.error PyErr.overflowError := rfl

/-- C6 amended: a string failing the base-16 parse resolves to null without raising,
as does a `None` input; a valid hex epoch within datetime's representable range
parses to the corresponding UTC timestamp; but a hex value beyond the platform's
64-bit time range raises an uncaught `OverflowError` instead of resolving to null. -/
theorem c6_hex_timestamp_amended :
    (∀ (s : String), pyIntBase16? s = Option.none →
        parse_last_contact (PyVal.str s) = Except.ok Option.none)
    ∧ (∀ (s : String) (t : Int), pyIntBase16? s = some t →
        datetimeMinTimestamp ≤ t → t ≤ datetimeMaxTimestamp →
        parse_last_contact (PyVal.str s) = Except.ok (some t))
    ∧ (∀ (s : String) (t : Int), pyIntBase16? s = some t → timeTMax < t →
        parse_last_contact (PyVal.str s) = Except.error PyErr.overflowError)
    ∧ parse_last_contact PyVal.none = Except.ok Option.none := by
  refine ⟨?_, ?_, ?_, rfl⟩
  · intro s h
    show parse_hex_timestamp s = _
    unfold parse_hex_timestamp
    rw [h]
  · intro s t h h1 h2
    have e1 : datetime_fromtimestamp_utc t = FromTimestampResult.ok t := by
      unfold datetimeMinTimestamp at h1
      unfold datetimeMaxTimestamp at h2
      unfold datetime_fromtimestamp_utc timeTMin timeTMax gmtimeMinTimestamp
        gmtimeMaxTimestamp datetimeMinTimestamp datetimeMaxTimestamp
      rw [if_neg (by omega), if_neg (by omega), if_neg (by omega)]
    show parse_hex_timestamp s = _
    simp only [parse_hex_timestamp, h, e1]
  · intro s t h h1
    have e1 : datetime_fromtimestamp_utc t
        = FromTimestampResult.uncaught PyErr.overflowError := by
      unfold timeTMax at h1
      unfold datetime_fromtimestamp_utc timeTMin timeTMax
      rw [if_pos (by omega)]
    show parse_hex_timestamp s = _
    simp only [parse_hex_timestamp, h, e1]

/-- C6 witness: the amended clauses at concrete inputs — an unparseable string, a
valid 2023 hex epoch, and the hex string of 2^64 (which raises). -/
theorem c6_hex_timestamp_amended_witness :
    parse_last_contact (PyVal.str "not-hex") = Except.ok Option.none
    ∧ parse_last_contact (PyVal.str "65000000") = Except.ok (some 1694498816)
    ∧ parse_last_contact (PyVal.str "10000000000000000") = Except.error PyErr.overflowError :=
  ⟨c6_hex_timestamp_amended.1 "not-hex" rfl,
   c6_hex_timestamp_amended.2.1 "65000000" 1694498816 rfl (by decide) (by decide),
   c6_hex_timestamp_amended.2.2.1 "10000000000000000" 18446744073709551616 rfl (by decide)⟩

/-- C1: evaluating the end-to-end scenario on the embedded code.  The device-list
response with `addr-1` (electric meter) and `addr-2` (other) parses, and `addr-1` is
queried and merged; but registering the meter fails, because hub.py constructs
`ElectricityMeter(hub=self, address=...)` while meter.py's `__init__` takes
`(self, hub, device)` — a `TypeError` wrapped into the cycle's `ConnectionError`.
The cycle thus aborts with one device stored instead of two, an empty meter table,
and no meter to read the demand variable from. -/
theorem c1_end_to_end_scenario_eval :
    (HubState.initial.async_refresh_devices Option.none c1Oracle).2
        = some RefreshFailure.connection
    ∧ ((HubState.initial.async_refresh_devices Option.none c1Oracle).1.devices.map
        Prod.fst) = ["addr-1"]
    ∧ (HubState.initial.async_refresh_devices Option.none c1Oracle).1.meters = [] :=
  ⟨rfl, rfl, rfl⟩

/-- C2 counterexample: refreshing an already-known device through the hub with a
detail response lacking ConnectionStatus/LastContact/NetworkAddress replaces the
stored record wholesale, so the three previously known values become null in the
table rather than being left unchanged. -/
theorem c2_whole_record_replace_counterexample :
    alistFind? ((c2PreState.async_refresh_device "addr-1"
        (PostOutcome.success c2RespLacking)).1.devices) "addr-1" = some c2BareDev
    ∧ c2StoredDev.ConnectionStatus = some "Connected"
    ∧ c2StoredDev.LastContact = some 1694498816
    ∧ c2StoredDev.NetworkAddress = some "0xbeef"
    ∧ c2BareDev.ConnectionStatus = Option.none
    ∧ c2BareDev.LastContact = Option.none
    ∧ c2BareDev.NetworkAddress = Option.none :=
  ⟨rfl, rfl, rfl, rfl, rfl, rfl, rfl⟩

/-- C2 amended: the hub's table refresh stores the queried record wholesale (the
stored entry becomes exactly the response-derived record, nulls included); the
field-by-field merge exists only in `ElectricityMeter.refresh` on the meter's held
device record, gated on the response's `DeviceDetails.LastContact`: when it is null
all three fields keep their previous values, and when it is non-null all three are
overwritten from the response. -/
theorem c2_field_merge_amended :
    (∀ (m : ElectricityMeter) (q : DeviceQueryResponse),
        q.DeviceDetails.LastContact = Option.none →
        (m.refreshWith q).device.ConnectionStatus = m.device.ConnectionStatus
        ∧ (m.refreshWith q).device.LastContact = m.device.LastContact
        ∧ (m.refreshWith q).device.NetworkAddress = m.device.NetworkAddress)
    ∧ (∀ (m : ElectricityMeter) (q : DeviceQueryResponse) (t : Int),
        q.DeviceDetails.LastContact = some t →
        (m.refreshWith q).device.ConnectionStatus = q.DeviceDetails.ConnectionStatus
        ∧ (m.refreshWith q).device.LastContact = some t
        ∧ (m.refreshWith q).device.NetworkAddress = q.DeviceDetails.NetworkAddress)
    ∧ (∀ (s : HubState) (hw : String) (dev newDev : EagleDevice) (o : PostOutcome),
        alistFind? s.devices hw = some dev →
        (s.async_query_device o).2 = Except.ok newDev →
        alistFind? ((s.async_refresh_device hw o).1.devices) hw = some newDev) := by
  refine ⟨?_, ?_, ?_⟩
  · intro m q h
    refine ⟨?_, ?_, ?_⟩ <;> simp [ElectricityMeter.refreshWith, h]
  · intro m q t h
    refine ⟨?_, ?_, ?_⟩ <;> simp [ElectricityMeter.refreshWith, h]
  · intro s hw dev newDev o h1 h2
    simp only [HubState.async_refresh_device, h1, h2]
    exact alistFind?_alistSet_self _ hw newDev

/-- C2 witness: the amended clauses at the concrete scenario — the meter-side merge
preserves the connection status under a lacking response and takes the fresh
timestamp under a full one, while the hub-side refresh stores the bare record. -/
theorem c2_field_merge_amended_witness :
    (c2Meter.refreshWith c2QueryLacking).device.ConnectionStatus = some "Connected"
    ∧ (c2Meter.refreshWith c2QueryFull).device.LastContact = some 1700000000
    ∧ alistFind? ((c2PreState.async_refresh_device "addr-1"
        (PostOutcome.success c2RespLacking)).1.devices) "addr-1" = some c2BareDev := by
  refine ⟨?_, ?_, ?_⟩
  · exact ((c2_field_merge_amended.1 c2Meter c2QueryLacking rfl).1).trans rfl
  · exact (c2_field_merge_amended.2.1 c2Meter c2QueryFull 1700000000 rfl).2.1
  · exact c2_field_merge_amended.2.2 c2PreState "addr-1" c2StoredDev c2BareDev
      (PostOutcome.success c2RespLacking) rfl rfl

/-- C4 counterexample: with a supplied three-device list whose second query fails
with a connection error, the whole cycle aborts wrapped as a `ConnectionError` and
the third device is never processed — contradicting the claim that a single device's
query failure is skipped and only a device-list fetch failure aborts the cycle. -/
theorem c4_per_device_abort_counterexample :
    (HubState.initial.async_refresh_devices (some [c4DevA, c4DevB, c4DevC])
        (c4OracleMid (PostOutcome.connectFailure PyErr.connectionError))).2
      = some RefreshFailure.connection
    ∧ ((HubState.initial.async_refresh_devices (some [c4DevA, c4DevB, c4DevC])
        (c4OracleMid (PostOutcome.connectFailure PyErr.connectionError))).1.devices.map
        Prod.fst) = ["addr-a"] :=
  ⟨rfl, rfl⟩

/-- C4 amended: any failure inside the refresh cycle — a single device's query as
much as the device-list fetch, in either the connect phase or the response-handling
phase of the exchange — aborts the whole cycle, wrapped as the timeout kind for
`TimeoutError` and the connectivity kind for any other error; devices merged before
the failure stay in the table and later devices are not processed. -/
theorem c4_cycle_abort_amended :
    (HubState.initial.async_refresh_devices (some [c4DevA, c4DevB, c4DevC])
        (c4OracleMid (PostOutcome.statusFailure PyErr.timeoutError))).2
      = some RefreshFailure.timeout
    ∧ (HubState.initial.async_refresh_devices (some [c4DevA, c4DevB, c4DevC])
        (c4OracleMid (PostOutcome.connectFailure PyErr.timeoutError))).2
      = some RefreshFailure.timeout
    ∧ (HubState.initial.async_refresh_devices (some [c4DevA, c4DevB, c4DevC])
        (c4OracleMid (PostOutcome.statusFailure PyErr.connectionError))).2
      = some RefreshFailure.connection
    ∧ ((HubState.initial.async_refresh_devices (some [c4DevA, c4DevB, c4DevC])
        (c4OracleMid (PostOutcome.statusFailure PyErr.timeoutError))).1.devices.map
        Prod.fst) = ["addr-a"]
    ∧ (HubState.initial.async_refresh_devices Option.none
        [PostOutcome.connectFailure PyErr.timeoutError]).2 = some RefreshFailure.timeout
    ∧ (HubState.initial.async_refresh_devices Option.none
        [PostOutcome.statusFailure PyErr.timeoutError]).2 = some RefreshFailure.timeout
    ∧ (HubState.initial.async_refresh_devices Option.none
        [PostOutcome.statusFailure PyErr.connectionError]).2
      = some RefreshFailure.connection
    ∧ (HubState.initial.async_refresh_devices Option.none
        [PostOutcome.statusFailure PyErr.connectionError]).1.devices = [] :=
  ⟨rfl, rfl, rfl, rfl, rfl, rfl, rfl, rfl⟩

/-- C8 counterexample: the meter constructed from the stored record keeps that
record; after the hub's poll cycle overwrites the table entry for the same hardware
address with a new record, the meter's device-level reads still reflect the captured
record and differ from the current table record — not a live view. -/
theorem c8_live_view_counterexample :
    ElectricityMeter.construct c2StoredDev = Except.ok c2Meter
    ∧ alistFind? ((c2PreState.async_refresh_device "addr-1"
        (PostOutcome.success c2RespLacking)).1.devices) "addr-1" = some c2BareDev
    ∧ c2Meter.last_contact = some 1694498816
    ∧ c2BareDev.LastContact = Option.none
    ∧ c2Meter.last_contact ≠ c2BareDev.LastContact :=
  ⟨rfl, rfl, rfl, rfl, by decide⟩

/-- C8 amended: `ElectricityMeter` is a snapshot, not a live view — construction
verifies the ModelId and captures the device record passed in, the device-level reads
are those of the captured record, and a subsequent hub-table overwrite leaves the
meter reading the captured (now stale) record. -/
theorem c8_meter_snapshot_amended :
    (∀ (d : EagleDevice) (m : ElectricityMeter),
        ElectricityMeter.construct d = Except.ok m →
        m.device = d ∧ m.hardware_address = d.HardwareAddress
          ∧ m.last_contact = d.LastContact ∧ m.components = [])
    ∧ (∀ (d : EagleDevice), d.ModelId ≠ "electric_meter" →
        ElectricityMeter.construct d = Except.error PyErr.valueError)
    ∧ c2Meter.device = c2StoredDev
    ∧ alistFind? ((c2PreState.async_refresh_device "addr-1"
        (PostOutcome.success c2RespLacking)).1.devices) "addr-1" = some c2BareDev
    ∧ c2StoredDev ≠ c2BareDev := by
  refine ⟨?_, ?_, rfl, rfl, by decide⟩
  · intro d m h
    have hm : ¬(d.ModelId ≠ "electric_meter") := by
      intro hne
      simp [ElectricityMeter.construct, hne] at h
    unfold ElectricityMeter.construct at h
    rw [if_neg hm] at h
    injection h with h2
    subst h2
    exact ⟨rfl, rfl, rfl, rfl⟩
  · intro d hd
    simp [ElectricityMeter.construct, hd]

/-- C8 witness: the snapshot semantics at concrete inputs — construction from the
stored record captures exactly that record, and construction from a non-meter device
is rejected. -/
theorem c8_meter_snapshot_amended_witness :
    c2Meter.device = c2StoredDev
    ∧ ElectricityMeter.construct c8OtherDev = Except.error PyErr.valueError :=
  ⟨(c8_meter_snapshot_amended.1 c2StoredDev c2Meter rfl).1,
   c8_meter_snapshot_amended.2.1 c8OtherDev (by decide)⟩

theorem async_query_device_meters (s : HubState) (o : PostOutcome) :
    (s.async_query_device o).1.meters = s.meters := by
  rw [async_query_device_fst, post_fst_meters]

theorem async_query_device_devices (s : HubState) (o : PostOutcome) :
    (s.async_query_device o).1.devices = s.devices := by
  rw [async_query_device_fst, post_fst_devices]

theorem refreshLoop_preserves (devs : List EagleDevice) :
    ∀ (s : HubState) (oracle : List PostOutcome), metersSubsetDevicesP s →
      metersSubsetDevicesP (refreshLoop s devs oracle).1 := by
  induction devs with
  | nil => exact fun s oracle h => h
  | cons device rest ih =>
    intro s oracle h
    simp only [refreshLoop]
    generalize oracle.headD (PostOutcome.connectFailure PyErr.connectionError) = o
    have hstep : metersSubsetDevicesP (s.async_query_device o).1 := by
      intro k hk
      rw [async_query_device_meters] at hk
      rw [async_query_device_devices]
      exact h k hk
    have hs2 : ∀ d : EagleDevice, metersSubsetDevicesP
        { (s.async_query_device o).1 with
          devices := alistSet (s.async_query_device o).1.devices device.HardwareAddress d } := by
      intro d k hk
      have hk2 : (alistFind? (s.async_query_device o).1.meters k).isSome = true := hk
      exact (alistFind?_alistSet_isSome _ _ _ _).mpr (Or.inr (hstep k hk2))
    split
    · exact hstep
    · next d heq =>
      split
      · next hmeter =>
        split
        · next hin => exact ih _ _ (hs2 d)
        · next hnotin =>
          split
          · next e2 heq2 => exact hs2 d
          · next m heq2 =>
            refine ih _ _ ?_
            intro k hk
            have hk2 : (alistFind? (alistSet (s.async_query_device o).1.meters
                device.HardwareAddress m) k).isSome = true := hk
            show (alistFind? (alistSet (s.async_query_device o).1.devices
                device.HardwareAddress d) k).isSome = true
            rcases (alistFind?_alistSet_isSome _ _ _ _).mp hk2 with hkeq | hkin
            · exact (alistFind?_alistSet_isSome _ _ _ _).mpr (Or.inl hkeq)
            · exact (alistFind?_alistSet_isSome _ _ _ _).mpr (Or.inr (hstep k hkin))
      · next hmeter => exact ih _ _ (hs2 d)

theorem async_refresh_device_preserves (s : HubState) (hw : String) (o : PostOutcome)
    (h : metersSubsetDevicesP s) :
    metersSubsetDevicesP (s.async_refresh_device hw o).1 := by
  simp only [HubState.async_refresh_device]
  split
  · exact h
  · next dev heq =>
    split
    · next e heq2 =>
      intro k hk
      rw [async_query_device_meters] at hk
      rw [async_query_device_devices]
      exact h k hk
    · next d heq2 =>
      intro k hk
      have hk2 : (alistFind? (s.async_query_device o).1.meters k).isSome = true := hk
      rw [async_query_device_meters] at hk2
      show (alistFind? (alistSet (s.async_query_device o).1.devices hw d) k).isSome = true
      rw [async_query_device_devices]
      exact (alistFind?_alistSet_isSome _ _ _ _).mpr (Or.inr (h k hk2))

theorem async_refresh_devices_preserves (s : HubState)
    (devicesArg : Option (List EagleDevice)) (oracle : List PostOutcome)
    (h : metersSubsetDevicesP s) :
    metersSubsetDevicesP (s.async_refresh_devices devicesArg oracle).1 := by
  cases devicesArg with
  | some devs => exact refreshLoop_preserves devs s oracle h
  | none =>
    simp only [HubState.async_refresh_devices]
    have hfetch : metersSubsetDevicesP
        (s.get_device_list (oracle.headD (PostOutcome.connectFailure PyErr.connectionError))).1 := by
      intro k hk
      rw [get_device_list_fst, post_fst_meters] at hk
      rw [get_device_list_fst, post_fst_devices]
      exact h k hk
    split
    · exact hfetch
    · next devs heq => exact refreshLoop_preserves devs _ oracle.tail hfetch

/-- C9: after construction and across every completed hub operation, every key of
the meter table is also a key of the device table — the meter table stays a subset
view of the device table (device entries are written before the corresponding meter
entry and are never removed). -/
theorem c9_meter_table_subset :
    metersSubsetDevicesB HubState.initial = true
    ∧ (∀ (s : HubState) (hw : String) (o : PostOutcome),
        metersSubsetDevicesB s = true →
        metersSubsetDevicesB (s.async_refresh_device hw o).1 = true)
    ∧ (∀ (s : HubState) (devicesArg : Option (List EagleDevice))
        (oracle : List PostOutcome),
        metersSubsetDevicesB s = true →
        metersSubsetDevicesB (s.async_refresh_devices devicesArg oracle).1 = true) := by
  refine ⟨rfl, ?_, ?_⟩
  · intro s hw o h
    rw [metersSubsetDevicesB_iff] at h ⊢
    exact async_refresh_device_preserves s hw o h
  · intro s devicesArg oracle h
    rw [metersSubsetDevicesB_iff] at h ⊢
    exact async_refresh_devices_preserves s devicesArg oracle h

/-- C9 witness: the invariant holds after running the two-device refresh scenario
from the initial state, via the preservation theorem. -/
theorem c9_meter_table_subset_witness :
    metersSubsetDevicesB (HubState.initial.async_refresh_devices Option.none c1Oracle).1
      = true :=
  c9_meter_table_subset.2.2 HubState.initial Option.none c1Oracle rfl

end Eagle
